import Mathlib

/-
Verification development for the live-api-web-console relay and audio
pipeline.  Each definition is a shallow embedding of one function of the
source (src/server.js and the client files); theorems settle the spec
claims about them.
-/

/- ---------------------------------------------------------------
   safeClose (src/server.js, minimal relay variant)
   --------------------------------------------------------------- -/

/-- Close codes rejected by the WebSocket close API (src/server.js, safeClose). -/
def invalidCloseCodes : List Int := [1005, 1006, 1015]

/-- Embedding of safeClose code validation: the code actually passed to
ws.close.  The source keeps the code only when it is a number in
[1000, 4999] outside the invalid set, and falls back to 1000. -/
def safeCloseCode (code : Int) : Int :=
  if 1000 ≤ code ∧ code ≤ 4999 ∧ code ∉ invalidCloseCodes then code else 1000

/- ---------------------------------------------------------------
   Verbose relay variant: googleWs close handler (src/server.js)
   --------------------------------------------------------------- -/

/-- WS_CLOSE_CODES.GOING_AWAY from src/server.js. -/
def wsCloseGoingAway : Int := 1001

/-- WS_CLOSE_CODES.SERVICE_RESTART from src/server.js. -/
def wsCloseServiceRestart : Int := 1012

/-- Embedding of the reasonStr computation in the verbose googleWs close
handler: an empty (falsy) upstream reason becomes the text No reason. -/
def googleCloseReasonStr (reason : String) : String :=
  if reason = "" then "No reason" else reason

/-- A close request issued toward one leg: the code and reason passed to
ws.close. -/
structure CloseFrame where
  code : Int
  reason : String
deriving DecidableEq

/-- Embedding of the verbose relay googleWs close handler: given whether the
inbound (client) leg is still open, the upstream close code and reason,
the close request issued on the inbound leg (none when it is not open).
An upstream GOING_AWAY code is mapped to SERVICE_RESTART with a fixed
reason; every other code is passed through with the upstream reason. -/
def relayCloseToClient (clientOpen : Bool) (code : Int) (reason : String) :
    Option CloseFrame :=
  if clientOpen then
    if code = wsCloseGoingAway then
      some ⟨wsCloseServiceRestart, "Backend service restarting, please reconnect"⟩
    else
      some ⟨code, googleCloseReasonStr reason⟩
  else none

/- ---------------------------------------------------------------
   Theorems for claims C3 and C1
   --------------------------------------------------------------- -/

/-- C3: for every code c in the set 1005, 1006, 1015 safeClose substitutes the
default normal-closure code 1000, and for every other integer c in
[1000, 4999] the code c is passed through unchanged. -/
theorem safeCloseCode_spec (c : Int) :
    (c ∈ invalidCloseCodes → safeCloseCode c = 1000) ∧
    (1000 ≤ c → c ≤ 4999 → c ∉ invalidCloseCodes → safeCloseCode c = c) := by
  constructor
  · intro hmem
    simp only [safeCloseCode]
    rw [if_neg]
    intro ⟨_, _, habs⟩
    exact habs hmem
  · intro h1 h2 h3
    simp only [safeCloseCode]
    rw [if_pos ⟨h1, h2, h3⟩]

/-- Witness for safeCloseCode_spec at the concrete codes 1005 and 1234. -/
theorem safeCloseCode_spec_witness :
    safeCloseCode 1005 = 1000 ∧ safeCloseCode 1234 = 1234 :=
  ⟨(safeCloseCode_spec 1005).1 (by decide),
   (safeCloseCode_spec 1234).2 (by decide) (by decide) (by decide)⟩

/-- C1 counterexample: when upstream closes with 1001 while the inbound leg is
open, the relay closes the inbound leg with code 1012 (SERVICE_RESTART), not
1013 as the claim states. -/
theorem relayCloseToClient_goingAway_counterexample :
    relayCloseToClient true 1001 "going away" =
      some ⟨1012, "Backend service restarting, please reconnect"⟩ ∧
    (1012 : Int) ≠ 1013 := by
  constructor
  · rfl
  · decide

/-- C1 amended: while the inbound leg is open, a close of the outbound leg with
any code other than 1001 closes the inbound leg with the same code and the
same reason (when the upstream reason is nonempty), while an upstream 1001
is translated to the service-restart code 1012 with a fixed reason; nothing
is sent when the inbound leg is no longer open. -/
theorem relayCloseToClient_spec (code : Int) (reason : String) :
    (code ≠ 1001 → reason ≠ "" →
      relayCloseToClient true code reason = some ⟨code, reason⟩) ∧
    (relayCloseToClient true 1001 reason =
      some ⟨1012, "Backend service restarting, please reconnect"⟩) ∧
    (relayCloseToClient false code reason = none) := by
  refine ⟨?_, ?_, rfl⟩
  · intro hc hr
    simp [relayCloseToClient, wsCloseGoingAway, googleCloseReasonStr, hc, hr]
  · simp [relayCloseToClient, wsCloseGoingAway, wsCloseServiceRestart]

/-- Witness for relayCloseToClient_spec at code 1008 with a nonempty reason. -/
theorem relayCloseToClient_spec_witness :
    relayCloseToClient true 1008 "policy" = some ⟨1008, "policy"⟩ :=
  (relayCloseToClient_spec 1008 "policy").1 (by decide) (by decide)

/- ---------------------------------------------------------------
   Minimal relay variant (src/server.js): message queue, flush on
   open, intentional-disconnect flag
   --------------------------------------------------------------- -/

/-- A client or upstream frame as the minimal relay sees it: either a frame
whose JSON parse yields type disconnect, or any other frame (identified by
a number so that sequences can be compared). -/
inductive Frame where
  | disconnectNotice : Frame
  | data : Nat → Frame
deriving DecidableEq

/-- Per-pairing state of the minimal relay variant: the googleWsReady flag,
the readyState of each leg, the messageQueue, the isIntentionalDisconnect
flag, and the observable output (frames passed to googleWs.send and
clientWs.send, and close requests issued on googleWs). -/
structure RelayState where
  googleWsReady : Bool
  googleWsOpen : Bool
  clientWsOpen : Bool
  messageQueue : List Frame
  isIntentionalDisconnect : Bool
  sentUpstream : List Frame
  sentToClient : List Frame
  googleCloseRequests : List CloseFrame
deriving DecidableEq

/-- State of a fresh pairing: the upstream socket is still connecting, the
queue is empty and no output has been produced. -/
def initialRelayState : RelayState :=
  { googleWsReady := false
    googleWsOpen := false
    clientWsOpen := true
    messageQueue := []
    isIntentionalDisconnect := false
    sentUpstream := []
    sentToClient := []
    googleCloseRequests := [] }

/-- Connection events driving the minimal relay pairing. -/
inductive RelayEvent where
  | googleOpen : RelayEvent
  | googleMessage : Frame → RelayEvent
  | clientMessage : Frame → RelayEvent
deriving DecidableEq

/-- One step of the minimal relay pairing, embedding the googleWs open,
googleWs message and clientWs message handlers of src/server.js. -/
def relayStep (s : RelayState) : RelayEvent → RelayState
  | .googleOpen =>
      { s with
        googleWsReady := true
        googleWsOpen := true
        sentUpstream := s.sentUpstream ++ s.messageQueue
        messageQueue := [] }
  | .googleMessage f =>
      if s.clientWsOpen && !s.isIntentionalDisconnect then
        { s with sentToClient := s.sentToClient ++ [f] }
      else s
  | .clientMessage f =>
      match f with
      | .disconnectNotice =>
          { s with
            isIntentionalDisconnect := true
            messageQueue := []
            googleWsOpen := false
            googleCloseRequests := s.googleCloseRequests ++
              [⟨safeCloseCode 1000, "Client requested disconnect"⟩] }
      | .data n =>
          if s.googleWsReady && s.googleWsOpen && !s.isIntentionalDisconnect then
            { s with sentUpstream := s.sentUpstream ++ [Frame.data n] }
          else if !s.isIntentionalDisconnect then
            { s with messageQueue := s.messageQueue ++ [Frame.data n] }
          else s

/-- Processes a sequence of events through the minimal relay pairing. -/
def relayRun (s : RelayState) (evs : List RelayEvent) : RelayState :=
  evs.foldl relayStep s

/-- While the upstream leg has not opened and no disconnect was requested,
client frames are appended to the message queue and nothing else changes. -/
theorem relayRun_queues_before_open (frames : List Frame) (s : RelayState)
    (hready : s.googleWsReady = false) (hflag : s.isIntentionalDisconnect = false)
    (hnd : Frame.disconnectNotice ∉ frames) :
    relayRun s (frames.map RelayEvent.clientMessage) =
      { s with messageQueue := s.messageQueue ++ frames } := by
  induction frames generalizing s with
  | nil => simp [relayRun]
  | cons f rest ih =>
    cases f with
    | disconnectNotice => simp at hnd
    | data n =>
      have hnd2 : Frame.disconnectNotice ∉ rest := fun h => hnd (List.mem_cons_of_mem _ h)
      simp only [List.map_cons, relayRun, List.foldl_cons]
      have hstep : relayStep s (RelayEvent.clientMessage (Frame.data n)) =
          { s with messageQueue := s.messageQueue ++ [Frame.data n] } := by
        simp [relayStep, hready, hflag]
      rw [hstep]
      have := ih { s with messageQueue := s.messageQueue ++ [Frame.data n] }
        hready hflag hnd2
      simp only [relayRun] at this
      rw [this]
      simp

/-- C2: for any sequence of N frames the client sends before the upstream leg
opens, none of them a disconnect notice, all N are forwarded to the
upstream leg, in original arrival order, exactly once, the instant the
upstream leg opens, and the queue is left empty. -/
theorem messageQueue_flush_spec (frames : List Frame)
    (hnd : Frame.disconnectNotice ∉ frames) :
    (relayRun initialRelayState
        (frames.map RelayEvent.clientMessage ++ [RelayEvent.googleOpen])).sentUpstream
      = frames ∧
    (relayRun initialRelayState
        (frames.map RelayEvent.clientMessage ++ [RelayEvent.googleOpen])).messageQueue
      = [] := by
  have h := relayRun_queues_before_open frames initialRelayState rfl rfl hnd
  simp only [relayRun, List.foldl_append] at *
  rw [h]
  simp [relayStep, initialRelayState]

/-- Witness for messageQueue_flush_spec at a concrete three-frame sequence. -/
theorem messageQueue_flush_spec_witness :
    (relayRun initialRelayState
        ([Frame.data 0, Frame.data 1, Frame.data 2].map RelayEvent.clientMessage ++
          [RelayEvent.googleOpen])).sentUpstream
      = [Frame.data 0, Frame.data 1, Frame.data 2] :=
  (messageQueue_flush_spec [Frame.data 0, Frame.data 1, Frame.data 2] (by decide)).1

/-- Once the disconnect flag is set and the queue is empty, no later event
changes the forwarded traffic in either direction, and the queue stays
empty. -/
theorem relayRun_after_disconnect (evs : List RelayEvent) (s : RelayState)
    (hflag : s.isIntentionalDisconnect = true) (hq : s.messageQueue = []) :
    (relayRun s evs).sentUpstream = s.sentUpstream ∧
    (relayRun s evs).sentToClient = s.sentToClient ∧
    (relayRun s evs).messageQueue = [] ∧
    (relayRun s evs).isIntentionalDisconnect = true := by
  induction evs generalizing s with
  | nil => exact ⟨rfl, rfl, hq, hflag⟩
  | cons e rest ih =>
    simp only [relayRun, List.foldl_cons]
    cases e with
    | googleOpen =>
        have := ih { s with
          googleWsReady := true
          googleWsOpen := true
          sentUpstream := s.sentUpstream ++ s.messageQueue
          messageQueue := [] } hflag rfl
        simp only [relayRun] at this
        simpa [relayStep, hq] using this
    | googleMessage f =>
        have hstep : relayStep s (RelayEvent.googleMessage f) = s := by
          simp [relayStep, hflag]
        rw [hstep]
        exact ih s hflag hq
    | clientMessage f =>
        cases f with
        | disconnectNotice =>
            have := ih { s with
              isIntentionalDisconnect := true
              messageQueue := []
              googleWsOpen := false
              googleCloseRequests := s.googleCloseRequests ++
                [⟨safeCloseCode 1000, "Client requested disconnect"⟩] } rfl rfl
            simp only [relayRun] at this
            simpa [relayStep] using this
        | data n =>
            have hstep : relayStep s (RelayEvent.clientMessage (Frame.data n)) = s := by
              simp [relayStep, hflag]
            rw [hstep]
            exact ih s hflag hq

/-- C10: once the minimal relay receives a client frame parsing to a
disconnect notice, the intentional-disconnect flag is set and from that
point on, whatever events follow, no frame is forwarded in either
direction and nothing is ever queued again. -/
theorem intentionalDisconnect_spec (s : RelayState) (evs : List RelayEvent) :
    (relayStep s (RelayEvent.clientMessage Frame.disconnectNotice)).isIntentionalDisconnect
      = true ∧
    (relayRun (relayStep s (RelayEvent.clientMessage Frame.disconnectNotice))
        evs).sentUpstream = s.sentUpstream ∧
    (relayRun (relayStep s (RelayEvent.clientMessage Frame.disconnectNotice))
        evs).sentToClient = s.sentToClient ∧
    (relayRun (relayStep s (RelayEvent.clientMessage Frame.disconnectNotice))
        evs).messageQueue = [] := by
  have h := relayRun_after_disconnect evs
    (relayStep s (RelayEvent.clientMessage Frame.disconnectNotice)) rfl rfl
  exact ⟨rfl, h.1, h.2.1, h.2.2.1⟩

/- ---------------------------------------------------------------
   useLiveAPI onClose handler and reconnection backoff
   (src/unnamed/part_002)
   --------------------------------------------------------------- -/

/-- RECONNECT_INITIAL_DELAY from use-live-api (milliseconds). -/
def reconnectInitialDelay : ℚ := 1000

/-- RECONNECT_MAX_DELAY from use-live-api (milliseconds). -/
def reconnectMaxDelay : ℚ := 30000

/-- RECONNECT_MAX_ATTEMPTS from use-live-api. -/
def reconnectMaxAttempts : Nat := 5

/-- Embedding of getReconnectDelay: exponential backoff from the current
attempt count, capped, plus the jitter drawn from Math.random times 1000. -/
def getReconnectDelay (attempt : Nat) (jitter : ℚ) : ℚ :=
  min (reconnectInitialDelay * 2 ^ attempt) reconnectMaxDelay + jitter

/-- The outcome of the onClose handler of use-live-api: either no
reconnection is attempted (normal closure), or a reconnect is scheduled
after a delay, or the state machine moves to the error state with a
reason. -/
inductive ConnAction where
  | noReconnect : ConnAction
  | scheduleReconnect : ℚ → ConnAction
  | errorState : String → ConnAction
deriving DecidableEq

/-- The error text produced by the catch-all branch of onClose. -/
def connectionClosedReason (code : Int) (reason : String) : String :=
  if reason = "" then "Connection closed: Code " ++ toString code
  else "Connection closed: " ++ reason

/-- Embedding of the onClose handler of use-live-api: code 1000 never
reconnects; codes 1012 and 1013 schedule a reconnect with backoff while
the attempt count is below the ceiling and move to the error state once
it is reached; every other code moves straight to the error state. -/
def onCloseAction (code : Int) (reason : String) (attempts : Nat) (jitter : ℚ) :
    ConnAction :=
  if code = 1000 then ConnAction.noReconnect
  else if code = 1012 ∨ code = 1013 then
    if attempts < reconnectMaxAttempts then
      ConnAction.scheduleReconnect (getReconnectDelay attempts jitter)
    else
      ConnAction.errorState "Maximum reconnection attempts (5) reached"
  else ConnAction.errorState (connectionClosedReason code reason)

/-- C4 counterexample: an abnormal closure without a clean handshake (code
1006) does not trigger reconnection; the handler moves straight to the
error state. -/
theorem onCloseAction_abnormal_counterexample :
    onCloseAction 1006 "" 0 0 =
      ConnAction.errorState "Connection closed: Code 1006" := by
  rfl

/-- C4 amended: a close with code 1000 never triggers reconnection; only the
transient codes 1012 (service restart) and 1013 (try again later) trigger
automatic reconnection, with delay min of 1000 times 2 to the attempt
count and 30000, plus jitter below 1000 ms, while fewer than 5 attempts
were made, and move to the error state with a descriptive reason once the
ceiling is reached; every other code, including abnormal closure 1006,
moves straight to the error state. -/
theorem onCloseAction_spec (code : Int) (reason : String) (k : Nat) (j : ℚ)
    (hj0 : 0 ≤ j) (hj1 : j < 1000) :
    (onCloseAction 1000 reason k j = ConnAction.noReconnect) ∧
    ((code = 1012 ∨ code = 1013) → k < 5 →
      onCloseAction code reason k j =
        ConnAction.scheduleReconnect (min (1000 * 2 ^ k) 30000 + j) ∧
      min ((1000 : ℚ) * 2 ^ k) 30000 + j < 31000 ∧
      1000 ≤ min ((1000 : ℚ) * 2 ^ k) 30000 + j) ∧
    ((code = 1012 ∨ code = 1013) → 5 ≤ k →
      onCloseAction code reason k j =
        ConnAction.errorState "Maximum reconnection attempts (5) reached") ∧
    (code ≠ 1000 → code ≠ 1012 → code ≠ 1013 →
      onCloseAction code reason k j =
        ConnAction.errorState (connectionClosedReason code reason)) := by
  have hne : (1012 : Int) ≠ 1000 := by decide
  have hne2 : (1013 : Int) ≠ 1000 := by decide
  refine ⟨by simp [onCloseAction], ?_, ?_, ?_⟩
  · intro hcode hk
    have hmin1 : (1000 : ℚ) ≤ min ((1000 : ℚ) * 2 ^ k) 30000 := by
      refine le_min ?_ (by norm_num)
      have : (1 : ℚ) ≤ 2 ^ k := one_le_pow₀ (by norm_num)
      nlinarith
    have hmin2 : min ((1000 : ℚ) * 2 ^ k) 30000 ≤ 30000 := min_le_right _ _
    refine ⟨?_, by linarith, by linarith⟩
    rcases hcode with h | h <;>
      simp [onCloseAction, h, hne, hne2, hk, reconnectMaxAttempts,
        getReconnectDelay, reconnectInitialDelay, reconnectMaxDelay]
  · intro hcode hk
    have hk2 : ¬ k < reconnectMaxAttempts := by
      simp only [reconnectMaxAttempts]; omega
    rcases hcode with h | h <;> simp [onCloseAction, h, hne, hne2, hk2]
  · intro h1 h2 h3
    simp [onCloseAction, h1, h2, h3]

/-- Witness for onCloseAction_spec: code 1012, first attempt, zero jitter. -/
theorem onCloseAction_spec_witness :
    onCloseAction 1012 "" 0 0 = ConnAction.scheduleReconnect 1000 := by
  have h := (onCloseAction_spec 1012 "" 0 0 (by norm_num) (by norm_num)).2.1
    (Or.inl rfl) (by norm_num)
  rw [h.1]
  norm_num

/- ---------------------------------------------------------------
   Session Record store and hourly cleanup sweep (src/server.js,
   verbose relay variant)
   --------------------------------------------------------------- -/

/-- The retention window of the session cleanup: 24 hours in milliseconds. -/
def sessionRetentionMs : Nat := 24 * 60 * 60 * 1000

/-- The period of the cleanup setInterval: one hour in milliseconds. -/
def sessionSweepIntervalMs : Nat := 60 * 60 * 1000

/-- Embedding of sessions.set: stores the handle with its timestamp,
replacing any previous record under the same handle. -/
def sessionsSet (store : List (String × Nat)) (handle : String) (ts : Nat) :
    List (String × Nat) :=
  (handle, ts) :: store.filter (fun p => p.1 ≠ handle)

/-- Embedding of one firing of the cleanup interval: every record whose age
now minus timestamp exceeds the retention window is deleted. -/
def sessionCleanup (now : Nat) (store : List (String × Nat)) :
    List (String × Nat) :=
  store.filter (fun p => now - p.2 ≤ sessionRetentionMs)

/-- Applies the cleanup at each of a list of sweep instants in turn. -/
def runSweeps : List Nat → List (String × Nat) → List (String × Nat)
  | [], store => store
  | now :: rest, store => runSweeps rest (sessionCleanup now store)

/-- Embedding of sessions.has: whether a record for the handle is present. -/
def sessionsHas (store : List (String × Nat)) (handle : String) : Bool :=
  store.any (fun p => p.1 == handle)

/-- The instants at which the first n firings of the hourly cleanup interval
occur, counted from process start: one period after start, then every
period. -/
def hourlySweeps (n : Nat) : List Nat :=
  (List.range n).map (fun k => sessionSweepIntervalMs * (k + 1))

theorem sessionRetentionMs_eq : sessionRetentionMs = 86400000 := by
  norm_num [sessionRetentionMs]

theorem sessionSweepIntervalMs_eq : sessionSweepIntervalMs = 3600000 := by
  norm_num [sessionSweepIntervalMs]

/-- Sweeps leave an empty store empty. -/
theorem runSweeps_empty (sweeps : List Nat) : runSweeps sweeps [] = [] := by
  induction sweeps with
  | nil => rfl
  | cons a rest ih => simpa [runSweeps, sessionCleanup] using ih

/-- A single record survives a sequence of sweeps exactly when no sweep sees
it older than the retention window. -/
theorem runSweeps_single (sweeps : List Nat) (handle : String) (ts : Nat) :
    runSweeps sweeps [(handle, ts)] =
      if ∀ s ∈ sweeps, s - ts ≤ sessionRetentionMs then [(handle, ts)] else [] := by
  induction sweeps with
  | nil => simp [runSweeps]
  | cons a rest ih =>
    by_cases ha : a - ts ≤ sessionRetentionMs
    · have hstep : sessionCleanup a [(handle, ts)] = [(handle, ts)] := by
        simp [sessionCleanup]
        omega
      rw [runSweeps, hstep, ih]
      have ha2 : a ≤ sessionRetentionMs + ts := by omega
      simp [List.forall_mem_cons, ha2]
    · have hstep : sessionCleanup a [(handle, ts)] = [] := by
        simp [sessionCleanup]
        omega
      rw [runSweeps, hstep, runSweeps_empty, if_neg]
      intro habs
      exact ha (habs a (List.mem_cons_self a rest))

/-- C5 counterexample: a handle stored at T = 3600001 ms (just after the
first hourly sweep) is still in the store at T + 24h01m = 90060001 ms,
although every sweep up to that instant (the first 25 hourly firings, the
last at 90000000 ms) has run: the record only becomes older than 24h after
the sweep at 90000000 ms, and the next sweep is at 93600000 ms. -/
theorem sessionEviction_counterexample :
    sessionsHas (runSweeps (hourlySweeps 25) (sessionsSet [] "h" 3600001)) "h"
      = true ∧
    (∀ s ∈ hourlySweeps 25, s ≤ 3600001 + 86460000) := by
  constructor
  · decide
  · decide

/-- C5 amended: a handle stored at time T survives every hourly sweep up to
T + 23h59m, and is evicted once an hourly sweep strictly later than
T + 24h has fired, which happens by T + 25h at the latest; it is not in
general evicted by T + 24h01m, because the hourly sweeps are aligned to
process start rather than to T. -/
theorem sessionRetention_spec (handle : String) (ts m n : Nat)
    (hm : sessionSweepIntervalMs * m ≤ ts + 86340000)
    (hn : ts + 90000000 ≤ sessionSweepIntervalMs * n) :
    sessionsHas (runSweeps (hourlySweeps m) (sessionsSet [] handle ts)) handle
      = true ∧
    sessionsHas (runSweeps (hourlySweeps n) (sessionsSet [] handle ts)) handle
      = false := by
  have hset : sessionsSet [] handle ts = [(handle, ts)] := by
    simp [sessionsSet]
  rw [hset]
  constructor
  · rw [runSweeps_single, if_pos]
    · simp [sessionsHas]
    · intro s hs
      simp only [hourlySweeps, List.mem_map, List.mem_range] at hs
      obtain ⟨k, hk, hkeq⟩ := hs
      rw [sessionSweepIntervalMs_eq] at hkeq hm
      rw [sessionRetentionMs_eq]
      omega
  · rw [runSweeps_single, if_neg]
    · simp [sessionsHas]
    · intro hall
      rw [sessionSweepIntervalMs_eq] at hn
      have hdm := Nat.div_add_mod (ts + 86400000) 3600000
      have hmod : (ts + 86400000) % 3600000 < 3600000 :=
        Nat.mod_lt _ (by norm_num)
      set q := (ts + 86400000) / 3600000 with hq
      have hmem : 3600000 * (q + 1) ∈ hourlySweeps n := by
        simp only [hourlySweeps, List.mem_map, List.mem_range,
          sessionSweepIntervalMs_eq]
        exact ⟨q, by omega, rfl⟩
      have := hall _ hmem
      rw [sessionRetentionMs_eq] at this
      omega

/-- Witness for sessionRetention_spec at T = 0 with 23 sweeps before the
query at 23h59m and 25 sweeps before the eviction deadline of 25h. -/
theorem sessionRetention_spec_witness :
    sessionsHas (runSweeps (hourlySweeps 25) (sessionsSet [] "h" 0)) "h"
      = false :=
  (sessionRetention_spec "h" 0 23 25 (by decide) (by decide)).2

/- ---------------------------------------------------------------
   Audio capture pipeline: sample conversion and chunking
   (src/unnamed/part_004, AudioRecordingWorkletSrc.processChunk and
   the ScriptProcessor fallback, which use the same conversion)
   --------------------------------------------------------------- -/

/-- Truncation toward zero: the conversion a JavaScript engine applies when a
fractional number is stored into an Int16Array slot (after the clamp keeps
the value inside the int16 range). -/
def truncTowardZero (q : ℚ) : Int := if 0 ≤ q then ⌊q⌋ else ⌈q⌉

/-- Embedding of the per-sample conversion of processChunk: the value
Math.max(-32768, Math.min(32767, x * 32768)) stored into an Int16Array
slot.  The inputs of interest are exactly representable, so the float
arithmetic of the source is exact and the rational model is faithful. -/
def convertSample (x : ℚ) : Int :=
  truncTowardZero (max (-32768) (min 32767 (x * 32768)))

/-- Truncation toward zero agrees with the floor on nonnegative inputs. -/
theorem truncTowardZero_nonneg (q : ℚ) (h : 0 ≤ q) :
    truncTowardZero q = ⌊q⌋ := by
  simp [truncTowardZero, h]

/-- Truncation toward zero agrees with the ceiling on nonpositive inputs. -/
theorem truncTowardZero_nonpos (q : ℚ) (h : q ≤ 0) :
    truncTowardZero q = ⌈q⌉ := by
  unfold truncTowardZero
  split
  case isTrue h0 =>
    have hq : q = 0 := le_antisymm h h0
    subst hq
    simp
  case isFalse h0 => rfl

/-- C6 counterexample: the sample 7 / 131072 scales to exactly 7 / 4 = 1.75;
the code stores 1 (truncation toward zero), while rounding toward the
nearest integer gives 2. -/
theorem convertSample_truncation_counterexample :
    convertSample (7 / 131072) = 1 ∧
    round ((7 : ℚ) / 131072 * 32768) = 2 := by
  constructor
  · have h1 : (7 : ℚ) / 131072 * 32768 = 7 / 4 := by norm_num
    have h2 : max (-32768 : ℚ) (min 32767 (7 / 4)) = 7 / 4 := by
      rw [min_eq_right (by norm_num), max_eq_right (by norm_num)]
    rw [convertSample, h1, h2, truncTowardZero_nonneg _ (by norm_num)]
    norm_num [Int.floor_eq_iff]
  · have h1 : (7 : ℚ) / 131072 * 32768 = 7 / 4 := by norm_num
    rw [h1, round_eq]
    norm_num [Int.floor_eq_iff]

/-- C6 amended: for every sample x in [-1, 1], the pipeline scales by 32768,
clamps into [-32768, 32767] and truncates toward zero (floor for
nonnegative scaled values below the positive clamp, ceiling for
nonpositive ones), saturating at 32767 for x = 1 and at -32768 for
x = -1; the result always lies in the signed 16-bit range. -/
theorem convertSample_spec (x : ℚ) (h1 : -1 ≤ x) (h2 : x ≤ 1) :
    (-32768 ≤ convertSample x ∧ convertSample x ≤ 32767) ∧
    (0 ≤ x → x * 32768 ≤ 32767 → convertSample x = ⌊x * 32768⌋) ∧
    (x ≤ 0 → convertSample x = ⌈x * 32768⌉) ∧
    convertSample 1 = 32767 ∧ convertSample (-1) = -32768 := by
  have hy1 : (-32768 : ℚ) ≤ x * 32768 := by nlinarith
  have hy2 : x * 32768 ≤ 32768 := by nlinarith
  refine ⟨?_, ?_, ?_, ?_, ?_⟩
  · have hc1 : (-32768 : ℚ) ≤ max (-32768) (min 32767 (x * 32768)) :=
      le_max_left _ _
    have hc2 : max (-32768 : ℚ) (min 32767 (x * 32768)) ≤ 32767 :=
      max_le (by norm_num) (min_le_left _ _)
    unfold convertSample truncTowardZero
    split
    · constructor
      · have h := Int.floor_le_floor hc1
        norm_num at h
        exact_mod_cast h
      · have h := Int.floor_le_floor hc2
        norm_num at h
        exact_mod_cast h
    · constructor
      · have h := Int.ceil_le_ceil hc1
        norm_num at h
        exact_mod_cast h
      · have h := Int.ceil_le_ceil hc2
        norm_num at h
        exact_mod_cast h
  · intro hx0 hxle
    have hy0 : (0 : ℚ) ≤ x * 32768 := by positivity
    have hmin : min (32767 : ℚ) (x * 32768) = x * 32768 := min_eq_right hxle
    have hmax : max (-32768 : ℚ) (x * 32768) = x * 32768 :=
      max_eq_right (by linarith)
    rw [convertSample, hmin, hmax, truncTowardZero_nonneg _ hy0]
  · intro hx0
    have hy0 : x * 32768 ≤ 0 := by nlinarith
    have hmin : min (32767 : ℚ) (x * 32768) = x * 32768 :=
      min_eq_right (by linarith)
    have hmax : max (-32768 : ℚ) (x * 32768) = x * 32768 := max_eq_right hy1
    rw [convertSample, hmin, hmax, truncTowardZero_nonpos _ hy0]
  · have hmin : min (32767 : ℚ) (1 * 32768) = 32767 := by norm_num
    have hmax : max (-32768 : ℚ) (32767) = 32767 := by norm_num
    rw [convertSample, hmin, hmax, truncTowardZero_nonneg _ (by norm_num)]
    norm_num
  · have hmin : min (32767 : ℚ) ((-1) * 32768) = -32768 := by norm_num
    have hmax : max (-32768 : ℚ) (-32768) = -32768 := by norm_num
    have hcast : ((-32768 : ℚ)) = ((-32768 : ℤ) : ℚ) := by norm_num
    rw [convertSample, hmin, hmax, truncTowardZero_nonpos _ (by norm_num),
      hcast, Int.ceil_intCast]

/-- Witness for convertSample_spec at the sample 1 / 2, whose scaled value
16384 is stored unchanged. -/
theorem convertSample_spec_witness :
    convertSample (1 / 2) = ⌊(1 : ℚ) / 2 * 32768⌋ :=
  (convertSample_spec (1 / 2) (by norm_num) (by norm_num)).2.1
    (by norm_num) (by norm_num)

/-- AUDIO_BUFFER_SIZE from the client audio code: the fixed output chunk
size in samples. -/
def AUDIO_BUFFER_SIZE : Nat := 2048

/-- State of the recording worklet: the prefix of the Int16 buffer written so
far (its length is the bufferWriteIndex) and the chunks already posted. -/
structure WorkletState where
  buffer : List Int
  emitted : List (List Int)
deriving DecidableEq

/-- The worklet starts with an empty buffer and nothing emitted. -/
def workletInit : WorkletState := { buffer := [], emitted := [] }

/-- One iteration of the processChunk loop: write the converted sample at
the cursor, advance it, and when the cursor reaches the buffer length
post the filled buffer and reset the cursor to zero. -/
def workletProcessOne (s : WorkletState) (v : Int) : WorkletState :=
  let buf := s.buffer ++ [v]
  if AUDIO_BUFFER_SIZE ≤ buf.length then
    { buffer := [], emitted := s.emitted ++ [buf] }
  else
    { s with buffer := buf }

/-- Embedding of processChunk: folds the loop body over the incoming float
block (already converted to Int16 values). -/
def processChunk (s : WorkletState) (samples : List Int) : WorkletState :=
  samples.foldl workletProcessOne s

/-- Counting invariant of processChunk: starting below the chunk size, the
number of chunks emitted and the samples left in the buffer are given by
division and remainder by the chunk size, and every emitted chunk is full. -/
theorem processChunk_counts (samples : List Int) (s : WorkletState)
    (hb : s.buffer.length < AUDIO_BUFFER_SIZE) :
    ((processChunk s samples).emitted.length
        = s.emitted.length + (s.buffer.length + samples.length) / AUDIO_BUFFER_SIZE)
  ∧ ((processChunk s samples).buffer.length
        = (s.buffer.length + samples.length) % AUDIO_BUFFER_SIZE)
  ∧ (∀ c ∈ (processChunk s samples).emitted,
        c ∈ s.emitted ∨ c.length = AUDIO_BUFFER_SIZE) := by
  induction samples generalizing s with
  | nil =>
    refine ⟨?_, ?_, fun c hc => Or.inl hc⟩
    · simp [processChunk, Nat.div_eq_of_lt hb]
    · simp [processChunk, Nat.mod_eq_of_lt hb]
  | cons v rest ih =>
    simp only [processChunk, List.foldl_cons] at *
    by_cases hfull : AUDIO_BUFFER_SIZE ≤ (s.buffer ++ [v]).length
    · have hstep : workletProcessOne s v =
          { buffer := [], emitted := s.emitted ++ [s.buffer ++ [v]] } := by
        simp only [workletProcessOne]
        rw [if_pos hfull]
      have hlen : (s.buffer ++ [v]).length = AUDIO_BUFFER_SIZE := by
        simp only [List.length_append, List.length_cons, List.length_nil] at *
        omega
      rw [hstep]
      have h0 : ([] : List Int).length < AUDIO_BUFFER_SIZE := by
        simp [AUDIO_BUFFER_SIZE]
      obtain ⟨ihe, ihb, ihc⟩ := ih { buffer := [], emitted := s.emitted ++ [s.buffer ++ [v]] } h0
      refine ⟨?_, ?_, ?_⟩
      · rw [ihe]
        simp only [List.length_append, List.length_cons, List.length_nil]
        have hb2 : s.buffer.length + 1 = AUDIO_BUFFER_SIZE := by
          simp only [List.length_append, List.length_cons, List.length_nil] at hlen
          omega
        simp only [AUDIO_BUFFER_SIZE] at *
        omega
      · rw [ihb]
        have hb2 : s.buffer.length + 1 = AUDIO_BUFFER_SIZE := by
          simp only [List.length_append, List.length_cons, List.length_nil] at hlen
          omega
        simp only [List.length_nil, List.length_cons, AUDIO_BUFFER_SIZE] at *
        omega
      · intro c hc
        rcases ihc c hc with hmem | hfull2
        · rcases List.mem_append.mp hmem with hmem2 | hmem2
          · exact Or.inl hmem2
          · right
            rw [List.mem_singleton.mp hmem2]
            exact hlen
        · exact Or.inr hfull2
    · have hstep : workletProcessOne s v = { s with buffer := s.buffer ++ [v] } := by
        simp only [workletProcessOne]
        rw [if_neg hfull]
      rw [hstep]
      have hlt : ({ s with buffer := s.buffer ++ [v] } : WorkletState).buffer.length
          < AUDIO_BUFFER_SIZE := by
        simpa using Nat.lt_of_not_le hfull
      obtain ⟨ihe, ihb, ihc⟩ := ih { s with buffer := s.buffer ++ [v] } hlt
      refine ⟨?_, ?_, ihc⟩
      · rw [ihe]
        dsimp only
        simp only [List.length_append, List.length_cons, List.length_nil]
        congr 1
        congr 1
        omega
      · rw [ihb]
        dsimp only
        simp only [List.length_append, List.length_cons, List.length_nil]
        congr 1
        omega

/-- C9: an input block of 5000 converted samples, processed from a fresh
worklet with the fixed chunk size 2048, emits exactly 2 full 2048-sample
chunks and leaves 904 samples in the write buffer; each emission resets
the write cursor (the buffer restarts empty), so the cursor never exceeds
the configured size. -/
theorem processChunk_5000_spec (samples : List Int)
    (hlen : samples.length = 5000) :
    (processChunk workletInit samples).emitted.length = 2 ∧
    (∀ c ∈ (processChunk workletInit samples).emitted, c.length = 2048) ∧
    (processChunk workletInit samples).buffer.length = 904 := by
  have h0 : (workletInit.buffer).length < AUDIO_BUFFER_SIZE := by
    simp [workletInit, AUDIO_BUFFER_SIZE]
  obtain ⟨he, hbuf, hchunks⟩ := processChunk_counts samples workletInit h0
  refine ⟨?_, ?_, ?_⟩
  · rw [he, hlen]
    simp [workletInit, AUDIO_BUFFER_SIZE]
  · intro c hc
    rcases hchunks c hc with hmem | hfull
    · simp [workletInit] at hmem
    · simpa [AUDIO_BUFFER_SIZE] using hfull
  · rw [hbuf, hlen]
    simp [workletInit, AUDIO_BUFFER_SIZE]

/-- Witness for processChunk_5000_spec on 5000 zero samples (silence). -/
theorem processChunk_5000_spec_witness :
    (processChunk workletInit (List.replicate 5000 0)).emitted.length = 2 :=
  (processChunk_5000_spec (List.replicate 5000 0) (by rw [List.length_replicate])).1

/- ---------------------------------------------------------------
   AudioStreamer playback scheduler (src/unnamed/part_004):
   addPCM16Data, scheduleNextBuffer, stop
   --------------------------------------------------------------- -/

/-- One gain automation call issued on the output GainNode: either
setValueAtTime with a value and a time, or linearRampToValueAtTime with a
target value and an end time. -/
inductive GainEvent where
  | setValueAt : ℚ → ℚ → GainEvent
  | linearRampTo : ℚ → ℚ → GainEvent
deriving DecidableEq

/-- State of the AudioStreamer: the lengths (in samples) of the queued
playback blocks, the number of samples in the reassembly buffer, the
scheduling cursor, the isPlaying flag, the gain value left after all
issued automation, and the automation calls themselves. -/
structure StreamerState where
  audioQueue : List Nat
  processingBuffer : Nat
  scheduledTime : ℚ
  isPlaying : Bool
  gainValue : ℚ
  gainEvents : List GainEvent
deriving DecidableEq

/-- A freshly initialized streamer: empty queue and buffer, not playing,
gain node at its default value 1. -/
def streamerInit : StreamerState :=
  { audioQueue := []
    processingBuffer := 0
    scheduledTime := 0
    isPlaying := false
    gainValue := 1
    gainEvents := [] }

/-- The fixed playback block size of the streamer (about 320 ms at 24 kHz). -/
def streamerBufferSize : Nat := 7680

/-- The initial buffering delay before the first block (100 ms). -/
def initialBufferTime : ℚ := 1 / 10

/-- The output sample rate of the streamer. -/
def outputSampleRate : Nat := 24000

/-- The duration in seconds of a block of b samples. -/
def blockDuration (b : Nat) : ℚ := (b : ℚ) / (outputSampleRate : ℚ)

/-- Embedding of addPCM16Data, tracking sample counts: append the decoded
samples to the reassembly buffer, slice off full blocks into the playback
queue, and when not yet playing and the queue is nonempty, start playing
with the cursor set to now plus the initial buffering delay.  Nothing
happens when the audio context is not running. -/
def addPCM16Data (contextRunning : Bool) (now : ℚ) (n : Nat)
    (s : StreamerState) : StreamerState :=
  if contextRunning then
    if !s.isPlaying &&
        !(s.audioQueue ++ List.replicate ((s.processingBuffer + n) / streamerBufferSize)
            streamerBufferSize).isEmpty then
      { s with
        audioQueue := s.audioQueue ++
          List.replicate ((s.processingBuffer + n) / streamerBufferSize)
            streamerBufferSize
        processingBuffer := (s.processingBuffer + n) % streamerBufferSize
        isPlaying := true
        scheduledTime := now + initialBufferTime }
    else
      { s with
        audioQueue := s.audioQueue ++
          List.replicate ((s.processingBuffer + n) / streamerBufferSize)
            streamerBufferSize
        processingBuffer := (s.processingBuffer + n) % streamerBufferSize }
  else s

/-- Embedding of stop: reset the playing flag, clear the queue and the
reassembly buffer, and, when the context is running, pin the gain at its
current value and ramp it linearly to zero over 100 ms; the automation
leaves the gain at zero. -/
def streamerStop (contextRunning : Bool) (now : ℚ) (s : StreamerState) :
    StreamerState :=
  if contextRunning then
    { s with
      isPlaying := false
      audioQueue := []
      processingBuffer := 0
      gainEvents := s.gainEvents ++
        [GainEvent.setValueAt s.gainValue now,
         GainEvent.linearRampTo 0 (now + 1 / 10)]
      gainValue := 0 }
  else
    { s with
      isPlaying := false
      audioQueue := []
      processingBuffer := 0 }

/-- The look-ahead window of the scheduling loop (200 ms). -/
def scheduleAheadTime : ℚ := 1 / 5

/-- Embedding of the while loop of scheduleNextBuffer: while the queue is
nonempty and the cursor is inside the look-ahead window, shift a block,
start it at the cursor clamped to now, and advance the cursor by the block
duration.  Returns the scheduled (start, duration) pairs, the new cursor
and the remaining queue. -/
def scheduleLoop (now : ℚ) : List Nat → ℚ → List (ℚ × ℚ) × ℚ × List Nat
  | [], t => ([], t, [])
  | b :: rest, t =>
      if t < now + scheduleAheadTime then
        ((max t now, blockDuration b) ::
            (scheduleLoop now rest (max t now + blockDuration b)).1,
          (scheduleLoop now rest (max t now + blockDuration b)).2)
      else ([], t, b :: rest)

/-- The property that a list of (start, duration) events is chained from
cursor t: each event starts at the previous end (the cursor), clamped to
now when the cursor has fallen behind real time. -/
def chainedSchedule (now : ℚ) : ℚ → List (ℚ × ℚ) → Prop
  | _, [] => True
  | t, e :: rest => e.1 = max t now ∧ chainedSchedule now (e.1 + e.2) rest

/-- C7: every pass of the scheduling loop schedules each block to start
exactly when the previous one ends, clamped to wall-clock now when the
cursor has fallen behind; no block ever starts earlier than now, and the
scheduled-until cursor never decreases. -/
theorem scheduleLoop_spec (now t : ℚ) (q : List Nat) :
    chainedSchedule now t (scheduleLoop now q t).1 ∧
    (∀ e ∈ (scheduleLoop now q t).1, now ≤ e.1 ∧ 0 ≤ e.2) ∧
    t ≤ (scheduleLoop now q t).2.1 := by
  induction q generalizing t with
  | nil => simp [scheduleLoop, chainedSchedule]
  | cons b rest ih =>
    by_cases hcond : t < now + scheduleAheadTime
    · obtain ⟨ih1, ih2, ih3⟩ := ih (max t now + blockDuration b)
      have hdur : (0 : ℚ) ≤ blockDuration b := by
        unfold blockDuration
        positivity
      simp only [scheduleLoop, if_pos hcond]
      refine ⟨⟨rfl, ih1⟩, ?_, ?_⟩
      · intro e he
        rcases List.mem_cons.mp he with he1 | he1
        · rw [he1]
          exact ⟨le_max_right t now, hdur⟩
        · exact ih2 e he1
      · calc t ≤ max t now := le_max_left t now
          _ ≤ max t now + blockDuration b := le_add_of_nonneg_right hdur
          _ ≤ (scheduleLoop now rest (max t now + blockDuration b)).2.1 := ih3
    · simp [scheduleLoop, if_neg hcond, chainedSchedule]

/-- C8 code bug, evaluated at the failing input: stopping a fresh streamer at
time 0 clears the queue and the reassembly buffer, resets the playing flag
and issues a 100 ms linear fade of the gain to zero, as the claim says;
but the gain is left at zero and no later call restores it, so when the
next stream arrives (one full block at time 1) the streamer re-enters the
playing state with a fresh cursor while its output gain is still zero:
the subsequent stream is scheduled against a silenced output rather than
playing back normally. -/
theorem audioStreamerStop_gain_eval :
    (streamerStop true 0 streamerInit).audioQueue = [] ∧
    (streamerStop true 0 streamerInit).processingBuffer = 0 ∧
    (streamerStop true 0 streamerInit).isPlaying = false ∧
    (streamerStop true 0 streamerInit).gainEvents =
      [GainEvent.setValueAt 1 0, GainEvent.linearRampTo 0 (1 / 10)] ∧
    (streamerStop true 0 streamerInit).gainValue = 0 ∧
    (addPCM16Data true 1 7680 (streamerStop true 0 streamerInit)).isPlaying = true ∧
    (addPCM16Data true 1 7680 (streamerStop true 0 streamerInit)).scheduledTime
      = 1 + 1 / 10 ∧
    (addPCM16Data true 1 7680 (streamerStop true 0 streamerInit)).audioQueue
      = [7680] ∧
    (addPCM16Data true 1 7680 (streamerStop true 0 streamerInit)).gainValue = 0 := by
  have h1 : streamerStop true 0 streamerInit =
      { audioQueue := []
        processingBuffer := 0
        scheduledTime := 0
        isPlaying := false
        gainValue := 0
        gainEvents := [GainEvent.setValueAt 1 0, GainEvent.linearRampTo 0 (1 / 10)] } := by
    simp [streamerStop, streamerInit]
  rw [h1]
  have h2 : addPCM16Data true 1 7680
      ({ audioQueue := []
         processingBuffer := 0
         scheduledTime := 0
         isPlaying := false
         gainValue := 0
         gainEvents := [GainEvent.setValueAt 1 0,
           GainEvent.linearRampTo 0 (1 / 10)] } : StreamerState) =
      { audioQueue := [7680]
        processingBuffer := 0
        scheduledTime := 1 + 1 / 10
        isPlaying := true
        gainValue := 0
        gainEvents := [GainEvent.setValueAt 1 0,
          GainEvent.linearRampTo 0 (1 / 10)] } := by
    simp [addPCM16Data, streamerBufferSize, initialBufferTime]
  rw [h2]
  refine ⟨rfl, rfl, rfl, rfl, rfl, rfl, rfl, rfl, rfl⟩
